import Mathlib

/-!
Verification of the two static-asset development servers in this repository:
`src/dev/tools/server.py` (variant A, class `CustomHTTPRequestHandler`) and
`src/server.py` (variant B, class `PWAHTTPRequestHandler`).  Both scripts
subclass the standard-library static file handler and layer a small header
and routing policy on top of it; the definitions below embed that policy
layer and the startup code of each `main` function.
-/

/-- Suffix test on strings, embedding the Python `str.endswith` predicate
used by both handlers (character-wise suffix match). -/
def endswith (s suffixStr : String) : Bool :=
  List.isSuffixOf suffixStr.data s.data

/-- An HTTP response: status code, header list in emission order (the order
the header lines are buffered before the blank line that finalizes them),
and body. -/
structure Resp where
  status : Nat
  headers : List (String × String)
  body : String
deriving DecidableEq

/-- HTTP methods the base handler dispatches to `do_GET`, `do_HEAD`, ... -/
inductive Method where
  | GET
  | HEAD
  | POST
  | OPTIONS
deriving DecidableEq

/-- The three CORS header lines sent first by `end_headers` in both
`src/dev/tools/server.py` and `src/server.py` (identical literals in the
two files). -/
def corsHeaders : List (String × String) :=
  [("Access-Control-Allow-Origin", "*"),
   ("Access-Control-Allow-Methods", "GET, POST, OPTIONS"),
   ("Access-Control-Allow-Headers", "Content-Type")]

/-- Cache-control block of `CustomHTTPRequestHandler.end_headers`
(src/dev/tools/server.py): `Cache-Control: no-cache` when `self.path`
ends in `.js`, nothing otherwise. -/
def cacheChainA (path : String) : List (String × String) :=
  if endswith path ".js" then [("Cache-Control", "no-cache")] else []

/-- Headers injected by `CustomHTTPRequestHandler.end_headers`
(src/dev/tools/server.py) before `super().end_headers()` finalizes the
header block: CORS headers, then the cache-control block. -/
def endHeadersA (path : String) : List (String × String) :=
  corsHeaders ++ cacheChainA path

/-- Content-type block of `PWAHTTPRequestHandler.end_headers`
(src/server.py): an `if .json / elif .js / elif .svg` chain on `self.path`,
each branch sending one extra `Content-Type` header. -/
def ctChainB (path : String) : List (String × String) :=
  if endswith path ".json" then [("Content-Type", "application/json")]
  else if endswith path ".js" then [("Content-Type", "application/javascript")]
  else if endswith path ".svg" then [("Content-Type", "image/svg+xml")]
  else []

/-- Cache-control block of `PWAHTTPRequestHandler.end_headers`
(src/server.py): `self.path.endswith(('.js', '.css', '.svg', '.png',
'.jpg'))` sends the one-year public cache header, `elif .html` sends
`no-cache`, otherwise nothing. -/
def ccChainB (path : String) : List (String × String) :=
  if endswith path ".js" || endswith path ".css" || endswith path ".svg"
      || endswith path ".png" || endswith path ".jpg" then
    [("Cache-Control", "public, max-age=31536000")]
  else if endswith path ".html" then [("Cache-Control", "no-cache")]
  else []

/-- Headers injected by `PWAHTTPRequestHandler.end_headers` (src/server.py)
before `super().end_headers()` finalizes the header block: CORS headers,
then the content-type block, then the cache-control block. -/
def endHeadersB (path : String) : List (String × String) :=
  corsHeaders ++ ctChainB path ++ ccChainB path

/-- `CustomHTTPRequestHandler.guess_type` (src/dev/tools/server.py): the
generic lookup result is computed first, then `.js`, `.ts`, `.json` are
overridden in that order, the generic encoding kept in every case. -/
def guess_type_A (generic : String → String × Option String) (path : String) :
    String × Option String :=
  let mr := generic path
  if endswith path ".js" then ("application/javascript", mr.2)
  else if endswith path ".ts" then ("application/typescript", mr.2)
  else if endswith path ".json" then ("application/json", mr.2)
  else mr

/-- Variant B delegation path: `PWAHTTPRequestHandler.do_GET`
(src/server.py) rewrites `self.path` from `/` to `/main.html` before
calling `super().do_GET()`; no other `do_*` method is overridden, so every
other method delegates with the raw path unchanged. -/
def effectivePathB (m : Method) (path : String) : String :=
  match m with
  | .GET => if path = "/" then "/main.html" else path
  | _ => path

/-- Variant A (src/dev/tools/server.py) overrides no `do_*` method:
delegation always uses the raw request path, for every method. -/
def effectivePathA (_ : Method) (path : String) : String := path

/-- Per-request behaviour of variant A: the base handler (abstracted as
`prim`) resolves and buffers its response for the unchanged path, then the
overridden `end_headers` appends its injected headers before finalizing. -/
def handleA (prim : Method → String → Resp) (m : Method) (path : String) : Resp :=
  let p := effectivePathA m path
  let r := prim m p
  { r with headers := r.headers ++ endHeadersA p }

/-- Per-request behaviour of variant B: `do_GET` first rewrites the path,
the base handler (abstracted as `prim`) resolves and buffers its response
for the rewritten path, and the overridden `end_headers` (which reads the
rewritten `self.path`) appends its injected headers before finalizing. -/
def handleB (prim : Method → String → Resp) (m : Method) (path : String) : Resp :=
  let p := effectivePathB m path
  let r := prim m p
  { r with headers := r.headers ++ endHeadersB p }

/-- Values of the `Content-Type` headers in a header list, in order. -/
def contentTypeValues (hs : List (String × String)) : List String :=
  (hs.filter (fun h => h.1 == "Content-Type")).map Prod.snd

/-- Values of the `Cache-Control` headers in a header list, in order. -/
def cacheControlValues (hs : List (String × String)) : List String :=
  (hs.filter (fun h => h.1 == "Cache-Control")).map Prod.snd

/-- Cache-Control table of spec variant A, following the spec words:
`.js` maps to `no-cache`; all other extensions get no explicit
Cache-Control header. -/
def specCacheControlA (path : String) : Option String :=
  if endswith path ".js" then some "no-cache" else none

/-- Cache-Control table of spec variant B, following the spec words:
`.js`, `.css`, `.svg`, `.png`, `.jpg` map to `public, max-age=31536000`;
`.html` maps to `no-cache`; others get none. -/
def specCacheControlB (path : String) : Option String :=
  if endswith path ".js" || endswith path ".css" || endswith path ".svg"
      || endswith path ".png" || endswith path ".jpg" then
    some "public, max-age=31536000"
  else if endswith path ".html" then some "no-cache"
  else none

/-- Modelled from the spec: the external static-file-serving primitive
(the standard-library handler both scripts subclass, which is not part of
src/) answers a successful file request by buffering the status line, one
`Content-Type` header obtained from the generic extension lookup, and a
`Content-Length` header, and then invokes `end_headers`. -/
def primFileResp (generic : String → String) (body : String) (path : String) : Resp :=
  { status := 200,
    headers := [("Content-Type", generic path),
                ("Content-Length", toString body.length)],
    body := body }

/-- Modelled from the spec: the external file-serving primitive resolves
the served file from the request target with the query string (everything
from the first question mark on) removed. -/
def primServedPath (path : String) : String :=
  String.mk (path.data.takeWhile (fun c => c != '?'))

/-- Symbolic filesystem path used to describe the startup `os.chdir`
targets: the script file itself, or `os.path.dirname` of another path
(`Path(__file__).parent` coincides with one `dirname` application). -/
inductive PathExpr where
  | scriptFile
  | dirnameOf (p : PathExpr)
deriving DecidableEq

/-- One observable effect of a `main` function before the serve loop. -/
inductive StartupStep where
  | chdir (d : PathExpr)
  | printInfo
  | bindPort (port : Nat)
  | serveForever
deriving DecidableEq

/-- Startup sequence of `main` in src/dev/tools/server.py:
`os.chdir(os.path.dirname(os.path.dirname(os.path.dirname(__file__))))`,
six console lines, the TCP bind on port 8080, one more console line inside
the `with` block, then `serve_forever`. -/
def startupStepsA : List StartupStep :=
  [.chdir (.dirnameOf (.dirnameOf (.dirnameOf .scriptFile))),
   .printInfo, .printInfo, .printInfo, .printInfo, .printInfo, .printInfo,
   .bindPort 8080, .printInfo, .serveForever]

/-- Startup sequence of `main` in src/server.py:
`os.chdir(Path(__file__).parent)`, six console lines, the TCP bind on
port 8080, then `serve_forever`. -/
def startupStepsB : List StartupStep :=
  [.chdir (.dirnameOf .scriptFile),
   .printInfo, .printInfo, .printInfo, .printInfo, .printInfo, .printInfo,
   .bindPort 8080, .serveForever]

/-- The directory a startup step changes into, when it is a `chdir`. -/
def chdirTarget : StartupStep → Option PathExpr
  | .chdir d => some d
  | _ => none

/-- Whether a startup step is the TCP bind. -/
def isBindStep : StartupStep → Bool
  | .bindPort _ => true
  | _ => false

/-- How the blocking `serve_forever` call ends: an operator interrupt
(`KeyboardInterrupt`), an `OSError` carrying an errno and a message, or
any other exception carrying a message. -/
inductive ServeOutcome where
  | interrupted
  | oserror (errno : Nat) (msg : String)
  | otherExc (msg : String)

/-- Observable result of a `main` function: the console lines it prints
itself, the process exit status, and whether an exception escaped `main`
uncaught (the interpreter then prints the traceback and exits 1). -/
structure MainResult where
  printed : List String
  exitCode : Nat
  uncaught : Bool
deriving DecidableEq

/-- Exception handling of `main` in src/dev/tools/server.py:
`except KeyboardInterrupt` prints the stop line and calls `sys.exit(0)`;
`except Exception` (which also covers `OSError`) prints the generic
failure line with the exception text and calls `sys.exit(1)`. -/
def mainA : ServeOutcome → MainResult
  | .interrupted =>
      { printed := ["\n服务器已停止"], exitCode := 0, uncaught := false }
  | .oserror _ msg =>
      { printed := ["服务器启动失败: " ++ msg], exitCode := 1, uncaught := false }
  | .otherExc msg =>
      { printed := ["服务器启动失败: " ++ msg], exitCode := 1, uncaught := false }

/-- Exception handling of `main` in src/server.py: `except
KeyboardInterrupt` prints the stop line and returns (the process then
exits with status 0); `except OSError` prints the dedicated
address-in-use lines when `e.errno == 48` and the generic failure line
otherwise, then calls `sys.exit(1)`; any other exception escapes `main`
uncaught. -/
def mainB : ServeOutcome → MainResult
  | .interrupted =>
      { printed := ["\n服务器已停止"], exitCode := 0, uncaught := false }
  | .oserror errno msg =>
      if errno = 48 then
        { printed := ["错误: 端口 8080 已被占用",
                      "请尝试关闭其他使用该端口的程序，或修改PORT变量使用其他端口"],
          exitCode := 1, uncaught := false }
      else
        { printed := ["服务器启动失败: " ++ msg], exitCode := 1, uncaught := false }
  | .otherExc _ =>
      { printed := [], exitCode := 1, uncaught := true }

/-! Helper lemmas about the header-value extractors. -/

lemma contentTypeValues_append (a b : List (String × String)) :
    contentTypeValues (a ++ b) = contentTypeValues a ++ contentTypeValues b := by
  simp [contentTypeValues, List.filter_append]

lemma cacheControlValues_append (a b : List (String × String)) :
    cacheControlValues (a ++ b) = cacheControlValues a ++ cacheControlValues b := by
  simp [cacheControlValues, List.filter_append]

lemma ctv_corsHeaders : contentTypeValues corsHeaders = [] := rfl

lemma ccv_corsHeaders : cacheControlValues corsHeaders = [] := rfl

lemma ctv_ccChainB (p : String) : contentTypeValues (ccChainB p) = [] := by
  unfold ccChainB
  split_ifs <;> rfl

lemma ccv_ctChainB (p : String) : cacheControlValues (ctChainB p) = [] := by
  unfold ctChainB
  split_ifs <;> rfl

lemma contentTypeValues_endHeadersB (p : String) :
    contentTypeValues (endHeadersB p) =
      (if endswith p ".json" then ["application/json"]
       else if endswith p ".js" then ["application/javascript"]
       else if endswith p ".svg" then ["image/svg+xml"]
       else []) := by
  unfold endHeadersB
  rw [contentTypeValues_append, contentTypeValues_append, ctv_corsHeaders,
    ctv_ccChainB, List.nil_append, List.append_nil]
  unfold ctChainB
  split_ifs <;> rfl

lemma cacheControlValues_endHeadersB (p : String) :
    cacheControlValues (endHeadersB p) =
      (if endswith p ".js" || endswith p ".css" || endswith p ".svg"
          || endswith p ".png" || endswith p ".jpg" then
        ["public, max-age=31536000"]
       else if endswith p ".html" then ["no-cache"]
       else []) := by
  unfold endHeadersB
  rw [cacheControlValues_append, cacheControlValues_append, ccv_corsHeaders,
    ccv_ctChainB, List.nil_append, List.nil_append]
  unfold ccChainB
  split_ifs <;> rfl

lemma cacheControlValues_endHeadersA (p : String) :
    cacheControlValues (endHeadersA p) =
      (if endswith p ".js" then ["no-cache"] else []) := by
  unfold endHeadersA
  rw [cacheControlValues_append, ccv_corsHeaders, List.nil_append]
  unfold cacheChainA
  split_ifs <;> rfl

/-! Claim theorems. -/

/-- C1 fails as stated: variant B has no `.ts` entry in its override
chain — for a `.ts` path its `end_headers` injects no Content-Type header
at all, and the response carries only the Content-Type produced by the
generic lookup of the underlying primitive (for `.ts` the OS database
reports `video/mp2t`, not `application/typescript`). -/
theorem c1_counterexample :
    contentTypeValues (endHeadersB "/app.ts") = [] ∧
    contentTypeValues
        ((handleB (fun _ => primFileResp (fun _ => "video/mp2t") "x")
            Method.GET "/app.ts").headers) = ["video/mp2t"] ∧
    contentTypeValues
        ((handleB (fun _ => primFileResp (fun _ => "video/mp2t") "x")
            Method.GET "/app.ts").headers) ≠ ["application/typescript"] := by
  refine ⟨rfl, rfl, by decide⟩

/-- C1 (amended): in variant A, `guess_type` returns the table value for
`.js`, `.ts` and `.json` (checked in that order) and the generic lookup
result for every other extension; in variant B, `end_headers` injects one
extra Content-Type header for `.json`, `.js` and `.svg` (checked in that
order) and none for any other extension — in particular none for `.ts`. -/
theorem c1_mime_overrides :
    (∀ (generic : String → String × Option String) (p : String),
      (endswith p ".js" = true →
        guess_type_A generic p = ("application/javascript", (generic p).2)) ∧
      (endswith p ".js" = false → endswith p ".ts" = true →
        guess_type_A generic p = ("application/typescript", (generic p).2)) ∧
      (endswith p ".js" = false → endswith p ".ts" = false →
        endswith p ".json" = true →
        guess_type_A generic p = ("application/json", (generic p).2)) ∧
      (endswith p ".js" = false → endswith p ".ts" = false →
        endswith p ".json" = false → guess_type_A generic p = generic p)) ∧
    (∀ p : String,
      (endswith p ".json" = true →
        contentTypeValues (endHeadersB p) = ["application/json"]) ∧
      (endswith p ".json" = false → endswith p ".js" = true →
        contentTypeValues (endHeadersB p) = ["application/javascript"]) ∧
      (endswith p ".json" = false → endswith p ".js" = false →
        endswith p ".svg" = true →
        contentTypeValues (endHeadersB p) = ["image/svg+xml"]) ∧
      (endswith p ".json" = false → endswith p ".js" = false →
        endswith p ".svg" = false → contentTypeValues (endHeadersB p) = [])) := by
  constructor
  · intro generic p
    refine ⟨?_, ?_, ?_, ?_⟩
    · intro h1
      simp [guess_type_A, h1]
    · intro h1 h2
      simp [guess_type_A, h1, h2]
    · intro h1 h2 h3
      simp [guess_type_A, h1, h2, h3]
    · intro h1 h2 h3
      simp [guess_type_A, h1, h2, h3]
  · intro p
    refine ⟨?_, ?_, ?_, ?_⟩
    · intro h1
      rw [contentTypeValues_endHeadersB]
      simp [h1]
    · intro h1 h2
      rw [contentTypeValues_endHeadersB]
      simp [h1, h2]
    · intro h1 h2 h3
      rw [contentTypeValues_endHeadersB]
      simp [h1, h2, h3]
    · intro h1 h2 h3
      rw [contentTypeValues_endHeadersB]
      simp [h1, h2, h3]

/-- Witness for `c1_mime_overrides` at concrete inputs: variant A resolves
`/script.js` to `application/javascript` whatever the generic lookup says,
and variant B injects `application/json` for `/data.json`. -/
theorem c1_mime_overrides_witness :
    guess_type_A (fun _ => ("text/plain", none)) "/script.js" =
      ("application/javascript", none) ∧
    contentTypeValues (endHeadersB "/data.json") = ["application/json"] :=
  ⟨(c1_mime_overrides.1 (fun _ => ("text/plain", none)) "/script.js").1 (by decide),
   (c1_mime_overrides.2 "/data.json").1 (by decide)⟩

/-- C2: for every request path, the Cache-Control headers emitted by the
overridden `end_headers` are exactly the single value given by the
corresponding spec table (variant A: `.js` maps to `no-cache`, others to
none; variant B: the five asset extensions map to the one-year public
cache value, `.html` to `no-cache`, others to none). -/
theorem c2_cache_control_table :
    ∀ p : String,
      cacheControlValues (endHeadersA p) = (specCacheControlA p).toList ∧
      cacheControlValues (endHeadersB p) = (specCacheControlB p).toList := by
  intro p
  constructor
  · rw [cacheControlValues_endHeadersA]
    unfold specCacheControlA
    split_ifs <;> rfl
  · rw [cacheControlValues_endHeadersB]
    unfold specCacheControlB
    split_ifs <;> rfl

/-- C3: for every request (any base-handler behaviour, any method, any
path), both variants emit the three CORS headers; they are the first three
headers injected by `end_headers`, hence they appear after the primitive's
buffered headers (which follow the status line) and before the blank line
with which the base class finalizes the header block. -/
theorem c3_cors_always :
    ∀ (prim : Method → String → Resp) (m : Method) (p : String),
      (("Access-Control-Allow-Origin", "*") ∈ (handleA prim m p).headers ∧
       ("Access-Control-Allow-Methods", "GET, POST, OPTIONS") ∈ (handleA prim m p).headers ∧
       ("Access-Control-Allow-Headers", "Content-Type") ∈ (handleA prim m p).headers) ∧
      (("Access-Control-Allow-Origin", "*") ∈ (handleB prim m p).headers ∧
       ("Access-Control-Allow-Methods", "GET, POST, OPTIONS") ∈ (handleB prim m p).headers ∧
       ("Access-Control-Allow-Headers", "Content-Type") ∈ (handleB prim m p).headers) ∧
      (endHeadersA p).take 3 = corsHeaders ∧
      (endHeadersB (effectivePathB m p)).take 3 = corsHeaders := by
  intro prim m p
  refine ⟨⟨?_, ?_, ?_⟩, ⟨?_, ?_, ?_⟩, rfl, rfl⟩ <;>
    simp [handleA, handleB, endHeadersA, endHeadersB, corsHeaders,
      effectivePathA]

/-- C4: in variant B a GET for the exact path `/` produces the very same
response as a GET for `/main.html`, for any behaviour of the underlying
primitive, because `do_GET` rewrites the path before delegation (the
header policy also sees the rewritten path); variant A delegates every
request with the path unchanged. -/
theorem c4_root_rewrite :
    (∀ prim : Method → String → Resp,
        handleB prim Method.GET "/" = handleB prim Method.GET "/main.html") ∧
    (∀ (m : Method) (p : String), effectivePathA m p = p) :=
  ⟨fun _ => rfl, fun _ _ => rfl⟩

/-- C5 fails as stated: variant A does not distinguish the address-in-use
case from other bind failures — its `except Exception` branch produces the
very same result (same printed lines, same exit status) for an `OSError`
with the address-in-use errno as for an `OSError` with any other errno. -/
theorem c5_counterexample :
    mainA (ServeOutcome.oserror 48 "Address already in use") =
      mainA (ServeOutcome.oserror 98 "Address already in use") := rfl

/-- C5 (amended): on startup failure both variants terminate with exit
status 1; only variant B distinguishes the address-in-use case, and only
as an `OSError` whose errno equals 48, printing the dedicated two-line
message; every other `OSError` and every other exception in variant A is
reported with the generic failure line, and in variant B a non-`OSError`
exception escapes `main` uncaught (the interpreter reports it and the
process still exits with a non-zero status). -/
theorem c5_startup_failures :
    (∀ (errno : Nat) (msg : String),
        mainA (ServeOutcome.oserror errno msg) =
          { printed := ["服务器启动失败: " ++ msg], exitCode := 1, uncaught := false }) ∧
    (∀ msg : String,
        mainA (ServeOutcome.otherExc msg) =
          { printed := ["服务器启动失败: " ++ msg], exitCode := 1, uncaught := false }) ∧
    (∀ msg : String,
        mainB (ServeOutcome.oserror 48 msg) =
          { printed := ["错误: 端口 8080 已被占用",
                        "请尝试关闭其他使用该端口的程序，或修改PORT变量使用其他端口"],
            exitCode := 1, uncaught := false }) ∧
    (∀ (errno : Nat) (msg : String), errno ≠ 48 →
        mainB (ServeOutcome.oserror errno msg) =
          { printed := ["服务器启动失败: " ++ msg], exitCode := 1, uncaught := false }) ∧
    (∀ msg : String,
        mainB (ServeOutcome.otherExc msg) =
          { printed := [], exitCode := 1, uncaught := true }) := by
  refine ⟨fun _ _ => rfl, fun _ => rfl, fun _ => rfl, fun errno msg h => ?_, fun _ => rfl⟩
  simp [mainB, h]

/-- Witness for `c5_startup_failures` at a concrete input: an `OSError`
with errno 98 gets the generic failure line in variant B. -/
theorem c5_startup_failures_witness :
    mainB (ServeOutcome.oserror 98 "Address already in use") =
      { printed := ["服务器启动失败: Address already in use"],
        exitCode := 1, uncaught := false } :=
  c5_startup_failures.2.2.2.1 98 "Address already in use" (by decide)

/-- C6: an operator interrupt of the running serve loop makes both
variants print the stop line and end the process with exit status 0 and
nothing escaping uncaught (variant A calls `sys.exit(0)` explicitly,
variant B returns from `main` normally). -/
theorem c6_clean_shutdown :
    mainA ServeOutcome.interrupted =
      { printed := ["\n服务器已停止"], exitCode := 0, uncaught := false } ∧
    mainB ServeOutcome.interrupted =
      { printed := ["\n服务器已停止"], exitCode := 0, uncaught := false } :=
  ⟨rfl, rfl⟩

/-- C7: the startup sequence of variant A performs exactly one working
directory change, to `dirname` applied three times to the script file
(three levels up from the script location), and the startup sequence of
variant B exactly one, to the directory containing the script file; in
both traces no `chdir` occurs at or after the TCP bind, so the base
directory is in place before the listener binds and never changes again. -/
theorem c7_chdir_before_bind :
    (startupStepsA.filterMap chdirTarget =
       [PathExpr.dirnameOf (PathExpr.dirnameOf (PathExpr.dirnameOf PathExpr.scriptFile))]) ∧
    (startupStepsB.filterMap chdirTarget = [PathExpr.dirnameOf PathExpr.scriptFile]) ∧
    ((startupStepsA.dropWhile (fun s => !isBindStep s)).filterMap chdirTarget = []) ∧
    ((startupStepsB.dropWhile (fun s => !isBindStep s)).filterMap chdirTarget = []) := by
  refine ⟨rfl, rfl, rfl, rfl⟩

/-- C8: in variant B, for any behaviour of the generic MIME lookup, any
body, any method and any request path ending in `.js`, `.json` or `.svg`,
the response headers contain exactly two `Content-Type` entries: the one
the file-serving primitive buffered from the generic lookup plus the one
`end_headers` injects (the primitive entry is never replaced). -/
theorem c8_double_content_type :
    ∀ (generic : String → String) (body p : String) (m : Method),
      (endswith p ".js" = true ∨ endswith p ".json" = true ∨
        endswith p ".svg" = true) →
      (contentTypeValues
          ((handleB (fun _ => primFileResp generic body) m p).headers)).length = 2 := by
  intro generic body p m h
  have hroot : p ≠ "/" := by
    intro e
    subst e
    rcases h with h | h | h <;> exact absurd h (by decide)
  have hep : effectivePathB m p = p := by
    cases m <;> simp [effectivePathB, hroot]
  show (contentTypeValues
      ((primFileResp generic body (effectivePathB m p)).headers ++
        endHeadersB (effectivePathB m p))).length = 2
  rw [hep, contentTypeValues_append]
  have hprim : contentTypeValues (primFileResp generic body p).headers =
      [generic p] := rfl
  rw [hprim, contentTypeValues_endHeadersB]
  rcases h with h | h | h <;> split_ifs <;> simp_all

/-- Witness for `c8_double_content_type` at a concrete input: the response
for `/sw.js` carries two Content-Type headers. -/
theorem c8_double_content_type_witness :
    (contentTypeValues
        ((handleB (fun _ => primFileResp (fun _ => "text/plain") "body")
            Method.GET "/sw.js").headers)).length = 2 :=
  c8_double_content_type (fun _ => "text/plain") "body" "/sw.js" Method.GET
    (Or.inl (by decide))

/-- C9: the root rewrite of variant B applies only to GET: a GET for the
exact path `/` delegates for `/main.html`, while any other method (HEAD in
particular) delegates every path, `/` included, unchanged. -/
theorem c9_get_only_rewrite :
    effectivePathB Method.GET "/" = "/main.html" ∧
    (∀ (m : Method) (p : String), m ≠ Method.GET → effectivePathB m p = p) := by
  refine ⟨rfl, ?_⟩
  intro m p h
  cases m
  · exact absurd rfl h
  all_goals rfl

/-- Witness for `c9_get_only_rewrite` at a concrete input: a HEAD request
for `/` keeps the path `/`. -/
theorem c9_get_only_rewrite_witness :
    effectivePathB Method.HEAD "/" = "/" :=
  c9_get_only_rewrite.2 Method.HEAD "/" (by decide)

/-- C10 fails as stated: the extension rules test the raw request target,
so a target that carries a query string whose text itself ends in a listed
extension does match — for `/app.css?v=main.js` (which contains a question
mark, hence carries a query string) variant A emits `Cache-Control:
no-cache` and variant B emits its `.js` Content-Type override, contrary to
the claim that no rule matches for any target with a query string. -/
theorem c10_counterexample :
    ("/app.css?v=main.js".data.contains '?') = true ∧
    cacheControlValues (endHeadersA "/app.css?v=main.js") = ["no-cache"] ∧
    contentTypeValues (endHeadersB "/app.css?v=main.js") =
      ["application/javascript"] := by
  refine ⟨by decide, rfl, rfl⟩

/-- C10 (amended): the extension rules test the raw request target
including any query string, so matching is decided by the raw target
suffix: a target such as `/app.js?v=1` matches no rule — no Cache-Control
in either variant and no Content-Type override in variant B — even though
the primitive serves the same file as for the query-less `/app.js`; a
query string that itself ends in a listed extension, however, does match. -/
theorem c10_raw_target_matching :
    cacheControlValues (endHeadersA "/app.js?v=1") = [] ∧
    cacheControlValues (endHeadersB "/app.js?v=1") = [] ∧
    contentTypeValues (endHeadersB "/app.js?v=1") = [] ∧
    primServedPath "/app.js?v=1" = primServedPath "/app.js" ∧
    cacheControlValues (endHeadersA "/app.css?v=x.js") = ["no-cache"] := by
  refine ⟨rfl, rfl, rfl, rfl, rfl⟩
